import Mathlib

/-!
# LinearSpring (OpenSim/Actuators/LinearSpring.cpp)

A shallow embedding of the tracking spring actuator and of the statements made
about it.

Conventions of the embedding.

* A C++ `double` is idealised as a rational number: arithmetic is exact and
  there is no NaN, no infinity and no rounding.
* `double x[3]` and `Array<double> x(0.0,3)` are functions `Fin 3 → ℚ`.
* A nullable pointer is an `Option`; dereferencing a null pointer ends the call
  with a `Fault`.
* The classes that `LinearSpring` inherits from or talks to (`ForceApplier`,
  `Model`, `AbstractDynamicsEngine`, `Storage`, `VectorFunction`, `Function`,
  `Mtx`) are declared outside `LinearSpring.cpp`.  Their state is modelled by
  the members that `LinearSpring.cpp` reads and writes, and their behaviour is either
  left open (a field or a parameter) or modelled from the specification, as
  said at each definition.
* Text written to the console (the two warnings) is not part of the state.
-/

namespace OpenSim

/-- Three doubles: `double x[3]`, `Array<double> x(0.0,3)`. -/
abbrev Vec3 := Fin 3 → ℚ

/-- The value of `Array<double> x(0.0,3)` right after its declaration. -/
def Vec3.zeros : Vec3 := fun _ => 0

/-- The C library function `fabs`, on idealised doubles. -/
def fabs (x : ℚ) : ℚ := |x|

/-- Modelled from the spec: `Mtx::Subtract(1,3,a,b,c)` of `OpenSim/Common/Mtx.h`,
which is outside `LinearSpring.cpp`.  The specification has the error
terms "computed per axis" as target minus current value, so the result is the
component-wise difference `a[i] - b[i]`. -/
def Mtx.Subtract (a b : Vec3) : Vec3 := fun i => a i - b i

/-- A `VectorFunction` as `LinearSpring` uses it: `evaluate(aX,rY)` returns the
value at `aX`, and `evaluate(aX,rY,aDerivWRT)` returns the derivative selected by
the index array `aDerivWRT`.  Both are left open. -/
structure VectorFunction where
  /-- The call `evaluate(aX,rY)`. -/
  evaluate : ℚ → Vec3
  /-- The call `evaluate(aX,rY,aDerivWRT)`. -/
  evaluateDeriv : ℚ → List Int → Vec3

/-- A scalar `Function` as `LinearSpring` uses it: `evaluate(aDerivOrder,aX)`. -/
structure Function where
  /-- The call `evaluate(aDerivOrder,aX)`. -/
  evaluate : Int → ℚ → ℚ

/-- A body of the model, known by its index. -/
structure AbstractBody where
  /-- Index of the body in the model. -/
  index : Nat
  deriving DecidableEq, Repr

/-- One row of a `Storage`: a time stamp and its data. -/
abbrev StateVector := ℚ × List ℚ

/-- A `Storage`: an ordered sequence of rows. -/
structure Storage where
  /-- The rows, oldest first. -/
  rows : List StateVector

/-- The first `n` entries of a three-element buffer. -/
def Vec3.toData (n : Nat) (v : Vec3) : List ℚ := (List.ofFn v).take n

/-- Modelled from the spec: `Storage::append(aT,aN,aY)` of the storage
collaborator ("ordered append"): one row holding the time and the first `aN`
values of the buffer is added at the end. -/
def Storage.append (st : Storage) (aT : ℚ) (aN : Nat) (aY : Vec3) : Storage :=
  { rows := st.rows ++ [(aT, aY.toData aN)] }

/-- Modelled from the spec: `Storage::getSize()` ("get-size"). -/
def Storage.getSize (st : Storage) : Int := (st.rows.length : Int)

/-- Modelled from the spec: `Storage::getTime(aIndex,rTime)` ("random-access
read-by-index"): the time of row `aIndex`; `rTime` keeps its value when there
is no such row. -/
def Storage.getTime (st : Storage) (aIndex : Nat) (rTime : ℚ) : ℚ :=
  match st.rows.get? aIndex with
  | some row => row.1
  | none => rTime

/-- Modelled from the spec: `Storage::getData(aIndex,aN,rData)` ("random-access
read-by-index"): the first `aN` values of row `aIndex` overwrite the start of
the buffer `rData`, which keeps its value when there is no such row. -/
def Storage.getData (st : Storage) (aIndex : Nat) (aN : Nat) (rData : List ℚ) : List ℚ :=
  match st.rows.get? aIndex with
  | some row => row.2.take aN ++ rData.drop (row.2.take aN).length
  | none => rData

/-- Modelled from the spec: `Storage::pad(aPadSize)`, "a `pad(n)` operation that
replicates the first/last sample `n` times at each boundary". -/
def Storage.pad (st : Storage) (aPadSize : Int) : Storage :=
  match st.rows.head?, st.rows.getLast? with
  | some first, some last =>
    { rows := List.replicate aPadSize.toNat first ++ st.rows ++
        List.replicate aPadSize.toNat last }
  | _, _ => st

/-- Modelled from the spec: `Storage::getTimeColumn(rTimes)`: the times of all
rows, in order (the returned count is the length of the list). -/
def Storage.getTimeColumn (st : Storage) : List ℚ := st.rows.map Prod.fst

/-- Modelled from the spec: `Storage::getDataColumn(aStateIndex,rData)`: entry
`aStateIndex` of every row, in order. -/
def Storage.getDataColumn (st : Storage) (aStateIndex : Nat) : List ℚ :=
  st.rows.map (fun row => row.2.getD aStateIndex 0)

/-- The dynamics engine as `LinearSpring` sees it.  The kinematics maps are
left open; they depend on the configuration `(q,u)` the engine currently holds.
Every `applyForce` call is recorded, in order. -/
structure AbstractDynamicsEngine where
  /-- Generalized coordinates of the current configuration. -/
  q : List ℚ
  /-- Generalized speeds of the current configuration. -/
  u : List ℚ
  /-- Global position of a local point of a body under a configuration. -/
  positionOf : List ℚ → List ℚ → AbstractBody → Vec3 → Vec3
  /-- Global velocity of a local point of a body under a configuration. -/
  velocityOf : List ℚ → List ℚ → AbstractBody → Vec3 → Vec3
  /-- The `applyForce` calls received so far: body, local point, force. -/
  appliedForces : List (AbstractBody × Vec3 × Vec3)

/-- The call `setConfiguration(aQ,aU)`. -/
def AbstractDynamicsEngine.setConfiguration (e : AbstractDynamicsEngine)
    (aQ aU : List ℚ) : AbstractDynamicsEngine :=
  { e with q := aQ, u := aU }

/-- The call `getPosition(aBody,aPoint,rPos)`. -/
def AbstractDynamicsEngine.getPosition (e : AbstractDynamicsEngine)
    (aBody : AbstractBody) (aPoint : Vec3) : Vec3 :=
  e.positionOf e.q e.u aBody aPoint

/-- The call `getVelocity(aBody,aPoint,rVel)`. -/
def AbstractDynamicsEngine.getVelocity (e : AbstractDynamicsEngine)
    (aBody : AbstractBody) (aPoint : Vec3) : Vec3 :=
  e.velocityOf e.q e.u aBody aPoint

/-- The call `applyForce(aBody,aPoint,aForce)`: the engine receives the force. -/
def AbstractDynamicsEngine.applyForce (e : AbstractDynamicsEngine)
    (aBody : AbstractBody) (aPoint aForce : Vec3) : AbstractDynamicsEngine :=
  { e with appliedForces := e.appliedForces ++ [(aBody, aPoint, aForce)] }

/-- The `Model` as `LinearSpring` sees it. -/
structure Model where
  /-- Value returned by `getTimeNormConstant()`. -/
  timeNormConstant : ℚ
  /-- Value returned by `getNumCoordinates()`. -/
  numCoordinates : Nat
  /-- Value returned by `getNumSpeeds()`. -/
  numSpeeds : Nat
  /-- The engine returned by `getDynamicsEngine()`. -/
  dynamicsEngine : AbstractDynamicsEngine

/-- The call `getTimeNormConstant()`. -/
def Model.getTimeNormConstant (m : Model) : ℚ := m.timeNormConstant

/-- The call `getDynamicsEngine()`. -/
def Model.getDynamicsEngine (m : Model) : AbstractDynamicsEngine := m.dynamicsEngine

/-- The call `getNumCoordinates()`. -/
def Model.getNumCoordinates (m : Model) : Nat := m.numCoordinates

/-- The call `getNumSpeeds()`. -/
def Model.getNumSpeeds (m : Model) : Nat := m.numSpeeds

/-- The ways a call can end abnormally. -/
inductive Fault where
  /-- A member of `_model` was used while `_model` is `NULL`. -/
  | nullModel
  /-- A member of `_pointFunction` was used while `_pointFunction` is `NULL`. -/
  | nullPointFunction
  deriving DecidableEq, Repr

/-- The members of a `LinearSpring`: those inherited from `Callback`,
`DerivCallback` and `ForceApplier` that `LinearSpring.cpp` uses, then its
own. -/
structure LinearSpring where
  /-- The member `_model` (may be `NULL`). -/
  _model : Option Model
  /-- The member `_on`, read by `getOn()`. -/
  _on : Bool
  /-- The member `_startTime`, read by `getStartTime()`. -/
  _startTime : ℚ
  /-- The member `_endTime`, read by `getEndTime()`. -/
  _endTime : ℚ
  /-- The member `_body`. -/
  _body : AbstractBody
  /-- The member `_point`, written by `setPoint`. -/
  _point : Vec3
  /-- The member `_force`, written by `setForce`. -/
  _force : Vec3
  /-- The member `_pointFunction` (may be `NULL`). -/
  _pointFunction : Option VectorFunction
  /-- The member `_recordAppliedLoads`. -/
  _recordAppliedLoads : Bool
  /-- The member `_appliedForceStore`. -/
  _appliedForceStore : Storage
  /-- The member `_targetPosition` (may be `NULL`). -/
  _targetPosition : Option VectorFunction
  /-- The member `_targetVelocity` (may be `NULL`). -/
  _targetVelocity : Option VectorFunction
  /-- The member `_scaleFunction` (may be `NULL`). -/
  _scaleFunction : Option Function
  /-- The member `_scaleFactor`. -/
  _scaleFactor : ℚ
  /-- The member `_threshold`. -/
  _threshold : ℚ
  /-- The member `_k`. -/
  _k : Vec3
  /-- The member `_b`. -/
  _b : Vec3

namespace LinearSpring

/-- The inherited `getOn()`. -/
def getOn (s : LinearSpring) : Bool := s._on

/-- The inherited `getStartTime()`. -/
def getStartTime (s : LinearSpring) : ℚ := s._startTime

/-- The inherited `getEndTime()`. -/
def getEndTime (s : LinearSpring) : ℚ := s._endTime

/-- The inherited `setPoint(aPoint)`. -/
def setPoint (s : LinearSpring) (aPoint : Vec3) : LinearSpring := { s with _point := aPoint }

/-- The inherited `setForce(aForce)`. -/
def setForce (s : LinearSpring) (aForce : Vec3) : LinearSpring := { s with _force := aForce }

/-- The method `LinearSpring::setNull`. -/
def setNull (s : LinearSpring) : LinearSpring :=
  { s with
    _targetPosition := none
    _targetVelocity := none
    _scaleFunction := none
    _scaleFactor := 1
    _threshold := 0
    _k := fun _ => 0
    _b := fun _ => 0 }

/-- The method `LinearSpring::setTargetPosition`. -/
def setTargetPosition (s : LinearSpring) (aTargetPosition : Option VectorFunction) :
    LinearSpring :=
  { s with _targetPosition := aTargetPosition }

/-- The method `LinearSpring::setTargetVelocity`. -/
def setTargetVelocity (s : LinearSpring) (aTargetVelocity : Option VectorFunction) :
    LinearSpring :=
  { s with _targetVelocity := aTargetVelocity }

/-- The method `LinearSpring::setKValue`. -/
def setKValue (s : LinearSpring) (aK : Vec3) : LinearSpring := { s with _k := fun i => aK i }

/-- The method `LinearSpring::setBValue`. -/
def setBValue (s : LinearSpring) (aB : Vec3) : LinearSpring := { s with _b := fun i => aB i }

/-- The method `LinearSpring::setThreshold`. -/
def setThreshold (s : LinearSpring) (aThreshold : ℚ) : LinearSpring :=
  { s with _threshold := aThreshold }

/-- The method `LinearSpring::getThreshold`. -/
def getThreshold (s : LinearSpring) : ℚ := s._threshold

/-- The method `LinearSpring::setScaleFunction`. -/
def setScaleFunction (s : LinearSpring) (aScaleFunction : Option Function) : LinearSpring :=
  { s with _scaleFunction := aScaleFunction }

/-- The method `LinearSpring::setScaleFactor`. -/
def setScaleFactor (s : LinearSpring) (aScaleFactor : ℚ) : LinearSpring :=
  { s with _scaleFactor := aScaleFactor }

/-- The method `LinearSpring::getScaleFactor`. -/
def getScaleFactor (s : LinearSpring) : ℚ := s._scaleFactor

/-- The callback `LinearSpring::applyActuation(aT,aX,aY)`; the controls `aX` and
the states `aY` are not used by the body.  `Magnitude` stands for
`Mtx::Magnitude` of `OpenSim/Common/Mtx.h`, which is outside
`LinearSpring.cpp`. -/
def applyActuation (Magnitude : Nat → Vec3 → ℚ) (s : LinearSpring) (aT : ℚ) :
    Except Fault LinearSpring :=
  -- Array<double> pLocal(0.0,3), pTarget(0.0,3), vTarget(0.0,3); derivWRT(0,1)
  let derivWRT : List Int := [0]
  -- treal[0] = aT*_model->getTimeNormConstant();
  match s._model with
  | none => Except.error Fault.nullModel
  | some model =>
    let treal : ℚ := aT * model.getTimeNormConstant
    -- if(_model==NULL) { printf(WARN); return; }
    if s._model.isNone then Except.ok s
    -- if(!getOn()) return;
    else if !s.getOn then Except.ok s
    else if aT ≥ s.getStartTime ∧ aT < s.getEndTime then
      -- if(_pointFunction!=NULL) { evaluate pLocal, vLocal; setPoint(&pLocal[0]); }
      let pLocal : Vec3 :=
        match s._pointFunction with
        | some pf => pf.evaluate treal
        | none => Vec3.zeros
      let s1 : LinearSpring :=
        match s._pointFunction with
        | some _ => s.setPoint pLocal
        | none => s
      -- if(_targetPosition!=NULL) { ... } else { cout << WARN; }
      let pTarget : Vec3 :=
        match s1._targetPosition with
        | some tp => tp.evaluate treal
        | none => Vec3.zeros
      let vTarget : Vec3 :=
        match s1._targetPosition with
        | some tp =>
          match s1._targetVelocity with
          | some tv => tv.evaluate treal
          | none => tp.evaluateDeriv treal derivWRT
        | none => Vec3.zeros
      -- GET GLOBAL POSITION AND VELOCITY
      let pGlobal : Vec3 := model.getDynamicsEngine.getPosition s1._body pLocal
      let vGlobal : Vec3 := model.getDynamicsEngine.getVelocity s1._body pLocal
      -- if(_scaleFunction != NULL) { scaleFactor = ...; setScaleFactor(scaleFactor); }
      let s2 : LinearSpring :=
        match s1._scaleFunction with
        | some sf => s1.setScaleFactor (sf.evaluate 0 (aT * model.getTimeNormConstant))
        | none => s1
      let dx : Vec3 := Mtx.Subtract pTarget pGlobal
      let dv : Vec3 := Mtx.Subtract vTarget vGlobal
      -- for(i=0;i<3;i++) force[i] = _scaleFactor*(_k[i]*dx[i] + _b[i]*dv[i]);
      let force : Vec3 := fun i => s2._scaleFactor * (s2._k i * dx i + s2._b i * dv i)
      let s3 : LinearSpring := s2.setForce force
      -- if(fabs(Mtx::Magnitude(3,force)) >= _threshold) { ... }
      if fabs (Magnitude 3 force) ≥ s3._threshold then
        -- _model->getDynamicsEngine().applyForce(*_body,&pLocal[0],force);
        let model1 : Model :=
          { model with
            dynamicsEngine := model.getDynamicsEngine.applyForce s3._body pLocal force }
        let s4 : LinearSpring := { s3 with _model := some model1 }
        -- if(_recordAppliedLoads) _appliedForceStore->append(aT,3,_force);
        if s4._recordAppliedLoads then
          Except.ok { s4 with _appliedForceStore := s4._appliedForceStore.append aT 3 s4._force }
        else Except.ok s4
      else Except.ok s3
    else Except.ok s

/-- The variables that the sample loop of `computeTargetFunctions` carries from
one round to the next. -/
structure TargetScan where
  /-- The buffer `t`. -/
  t : ℚ
  /-- The buffer `q`. -/
  q : List ℚ
  /-- The buffer `u`. -/
  u : List ℚ
  /-- The engine of the model. -/
  engine : AbstractDynamicsEngine
  /-- The local `pGlobalStore`. -/
  pGlobalStore : Storage
  /-- The local `vGlobalStore`. -/
  vGlobalStore : Storage

/-- One round `i` of the sample loop of `computeTargetFunctions`. -/
def computeTargetFunctionsStep (s : LinearSpring) (nq nu : Nat)
    (aQStoreForTarget aUStoreForTarget : Storage) (st : TargetScan) (i : Nat) :
    Except Fault TargetScan :=
  -- Set the model state
  let t := aQStoreForTarget.getTime i st.t
  let q := aQStoreForTarget.getData i nq st.q
  let u := aUStoreForTarget.getData i nu st.u
  let engine := st.engine.setConfiguration q u
  -- Get global position and velocity
  match s._pointFunction with
  | none => Except.error Fault.nullPointFunction
  | some pf =>
    let pLocal : Vec3 := pf.evaluate t
    let pGlobal : Vec3 := engine.getPosition s._body pLocal
    let vGlobal : Vec3 := engine.getVelocity s._body pLocal
    -- Append to storage
    Except.ok
      { t := t, q := q, u := u, engine := engine
        pGlobalStore := st.pGlobalStore.append t 3 pGlobal
        vGlobalStore := st.vGlobalStore.append t 3 vGlobal }

/-- The sample loop of `computeTargetFunctions` over the indices still to do. -/
def computeTargetFunctionsLoop (s : LinearSpring) (nq nu : Nat)
    (aQStoreForTarget aUStoreForTarget : Storage) :
    List Nat → TargetScan → Except Fault TargetScan
  | [], st => Except.ok st
  | i :: rest, st =>
    match computeTargetFunctionsStep s nq nu aQStoreForTarget aUStoreForTarget st i with
    | Except.error e => Except.error e
    | Except.ok st1 =>
      computeTargetFunctionsLoop s nq nu aQStoreForTarget aUStoreForTarget rest st1

/-- The spline fitted to a (padded) store:
`new VectorGCVSplineR1R3(3,size,time,c0,c1,c2)` with the time column and the
three data columns of the store. -/
def splineOfStore
    (VectorGCVSplineR1R3 : Int → Int → List ℚ → List ℚ → List ℚ → List ℚ → VectorFunction)
    (st : Storage) : VectorFunction :=
  VectorGCVSplineR1R3 3 (st.getTimeColumn.length : Int) st.getTimeColumn
    (st.getDataColumn 0) (st.getDataColumn 1) (st.getDataColumn 2)

/-- The method `LinearSpring::computeTargetFunctions`.  The constructor of
`VectorGCVSplineR1R3`, which is outside `LinearSpring.cpp`, is left
open. -/
def computeTargetFunctions
    (VectorGCVSplineR1R3 : Int → Int → List ℚ → List ℚ → List ℚ → List ℚ → VectorFunction)
    (s : LinearSpring) (aQStoreForTarget aUStoreForTarget : Storage) :
    Except Fault LinearSpring :=
  -- int nq = _model->getNumCoordinates(); int nu = _model->getNumSpeeds();
  match s._model with
  | none => Except.error Fault.nullModel
  | some model =>
    let nq := model.getNumCoordinates
    let nu := model.getNumSpeeds
    -- CREATE THE TARGET POSITION AND VELOCITY FUNCTIONS
    let size : Int := aQStoreForTarget.getSize
    let start : TargetScan :=
      { t := 0, q := List.replicate nq 0, u := List.replicate nu 0
        engine := model.getDynamicsEngine
        pGlobalStore := { rows := [] }, vGlobalStore := { rows := [] } }
    match computeTargetFunctionsLoop s nq nu aQStoreForTarget aUStoreForTarget
        (List.range size.toNat) start with
    | Except.error e => Except.error e
    | Except.ok scan =>
      -- int padSize = size / 4; if(padSize>100) padSize = 100;
      let padSize0 : Int := Int.tdiv size 4
      let padSize : Int := if padSize0 > 100 then 100 else padSize0
      -- Position
      let pGlobalStore := scan.pGlobalStore.pad padSize
      let s1 := s.setTargetPosition (some (splineOfStore VectorGCVSplineR1R3 pGlobalStore))
      -- Velocity
      let vGlobalStore := scan.vGlobalStore.pad padSize
      let s2 := s1.setTargetVelocity (some (splineOfStore VectorGCVSplineR1R3 vGlobalStore))
      Except.ok { s2 with _model := some { model with dynamicsEngine := scan.engine } }

/-! ## The quantities of one call, named as in the specification -/

/-- The query time of a call at time `aT`: the time scaled by the time
normalization constant of the model (`treal`). -/
def queryTime (model : Model) (aT : ℚ) : ℚ := aT * model.timeNormConstant

/-- The local attachment point of a call with query time `τ` (`pLocal`): the
value of the point function, or the zero vector when none is bound. -/
def localPoint (s : LinearSpring) (τ : ℚ) : Vec3 :=
  match s._pointFunction with
  | some pf => pf.evaluate τ
  | none => Vec3.zeros

/-- The target position of a call with query time `τ` (`pTarget`). -/
def targetPosition (s : LinearSpring) (τ : ℚ) : Vec3 :=
  match s._targetPosition with
  | some tp => tp.evaluate τ
  | none => Vec3.zeros

/-- The target velocity of a call with query time `τ` (`vTarget`). -/
def targetVelocity (s : LinearSpring) (τ : ℚ) : Vec3 :=
  match s._targetPosition, s._targetVelocity with
  | some _, some tv => tv.evaluate τ
  | some tp, none => tp.evaluateDeriv τ [0]
  | none, _ => Vec3.zeros

/-- The global position of the attachment point (`pGlobal`). -/
def globalPosition (s : LinearSpring) (model : Model) (τ : ℚ) : Vec3 :=
  model.dynamicsEngine.getPosition s._body (localPoint s τ)

/-- The global velocity of the attachment point (`vGlobal`). -/
def globalVelocity (s : LinearSpring) (model : Model) (τ : ℚ) : Vec3 :=
  model.dynamicsEngine.getVelocity s._body (localPoint s τ)

/-- The position error of a call at time `aT` (`dx`): target position minus
global position, per axis. -/
def positionError (s : LinearSpring) (model : Model) (aT : ℚ) : Vec3 :=
  fun i => targetPosition s (queryTime model aT) i - globalPosition s model (queryTime model aT) i

/-- The velocity error of a call at time `aT` (`dv`): target velocity minus
global velocity, per axis. -/
def velocityError (s : LinearSpring) (model : Model) (aT : ℚ) : Vec3 :=
  fun i => targetVelocity s (queryTime model aT) i - globalVelocity s model (queryTime model aT) i

/-- The multiplier of a call with query time `τ`: the value of the scale
function when one is bound, the stored scale factor otherwise. -/
def scaleMultiplier (s : LinearSpring) (τ : ℚ) : ℚ :=
  match s._scaleFunction with
  | some sf => sf.evaluate 0 τ
  | none => s._scaleFactor

/-- The force law of the specification: per axis,
`multiplier * (k[i]*dx[i] + b[i]*dv[i])`. -/
def forceWith (multiplier : ℚ) (k b dx dv : Vec3) : Vec3 :=
  fun i => multiplier * (k i * dx i + b i * dv i)

/-- The force of a call at time `aT` according to the specification: the force
law applied to the multiplier, the gains and the errors of the call. -/
def forceLaw (s : LinearSpring) (model : Model) (aT : ℚ) : Vec3 :=
  forceWith (scaleMultiplier s (queryTime model aT)) s._k s._b
    (positionError s model aT) (velocityError s model aT)

/-- The `applyForce` calls the engine of the actuator's model has received. -/
def applyForceCalls (s : LinearSpring) : List (AbstractBody × Vec3 × Vec3) :=
  match s._model with
  | some model => model.dynamicsEngine.appliedForces
  | none => []

/-- The rows of the applied-force log. -/
def appliedForceLog (s : LinearSpring) : List StateVector := s._appliedForceStore.rows

/-- A call reaches the force computation: a model is bound, the actuator is on
and the time lies in the activation window. -/
def ReachesForceComputation (s : LinearSpring) (model : Model) (aT : ℚ) : Prop :=
  s._model = some model ∧ s.getOn = true ∧ s.getStartTime ≤ aT ∧ aT < s.getEndTime

/-- The threshold gate of the code: `fabs(Mtx::Magnitude(3,force)) >= _threshold`. -/
def PassesGate (Magnitude : Nat → Vec3 → ℚ) (s : LinearSpring) (force : Vec3) : Prop :=
  s._threshold ≤ fabs (Magnitude 3 force)

/-- What is required of `Mtx::Magnitude` as the Euclidean magnitude of three
components: the result is never negative, and it is the exact magnitude
whenever that is a rational number. -/
def IsMagnitude (Magnitude : Nat → Vec3 → ℚ) : Prop :=
  ∀ v : Vec3, 0 ≤ Magnitude 3 v ∧
    ∀ m : ℚ, 0 ≤ m → m * m = v 0 * v 0 + v 1 * v 1 + v 2 * v 2 → Magnitude 3 v = m

/-- The members that an active-path call writes before the threshold gate: the
attachment point (when a point function is bound), the scale factor and the
force. -/
def storedState (s : LinearSpring) (model : Model) (aT : ℚ) : LinearSpring :=
  { s with
    _point :=
      match s._pointFunction with
      | some _ => localPoint s (queryTime model aT)
      | none => s._point
    _scaleFactor := scaleMultiplier s (queryTime model aT)
    _force := forceLaw s model aT }

/-- The state after an active-path call whose force passes the threshold gate:
the members of `storedState`, the force handed to the engine at the local
attachment point, and the log row when loads are recorded. -/
def appliedState (s : LinearSpring) (model : Model) (aT : ℚ) : LinearSpring :=
  { storedState s model aT with
    _model := some
      { model with
        dynamicsEngine :=
          model.dynamicsEngine.applyForce s._body (localPoint s (queryTime model aT))
            (forceLaw s model aT) }
    _appliedForceStore :=
      if s._recordAppliedLoads then s._appliedForceStore.append aT 3 (forceLaw s model aT)
      else s._appliedForceStore }

/-- Between the states `s` and `s1` the engine received exactly one more
`applyForce` call: for the body of the actuator, at `point`, with `force`. -/
def ForceApplied (s s1 : LinearSpring) (point force : Vec3) : Prop :=
  applyForceCalls s1 = applyForceCalls s ++ [(s._body, point, force)]

/-- Between the states `s` and `s1` there was no engine call and no log entry. -/
def ForceSuppressed (s s1 : LinearSpring) : Prop :=
  applyForceCalls s1 = applyForceCalls s ∧ appliedForceLog s1 = appliedForceLog s

end LinearSpring

/-! ## Concrete inputs -/

/-- A computable stand-in for `Mtx::Magnitude`: the rational square root of the
sum of the squares of the first `n` components.  It is exact whenever the
magnitude is a rational number. -/
def sqrtMagnitude (n : Nat) (v : Vec3) : ℚ :=
  Rat.sqrt (((List.ofFn v).take n).map (fun x => x * x)).sum

/-- An engine that reports the attachment point at `(1,0,0)`, at rest. -/
def demoEngine : AbstractDynamicsEngine :=
  { q := [], u := []
    positionOf := fun _ _ _ _ => ![1, 0, 0]
    velocityOf := fun _ _ _ _ => ![0, 0, 0]
    appliedForces := [] }

/-- A model with time normalization constant 1. -/
def demoModel : Model :=
  { timeNormConstant := 1, numCoordinates := 1, numSpeeds := 1, dynamicsEngine := demoEngine }

/-- A target that moves along the x axis with unit speed: `(t,0,0)`. -/
def demoTarget : VectorFunction :=
  { evaluate := fun t => ![t, 0, 0], evaluateDeriv := fun _ _ => ![1, 0, 0] }

/-- The end-to-end scenario of the specification: `k=(10,0,0)`, `b=(0,0,0)`,
scale factor 1, threshold 0, window `[0,10)`, loads recorded. -/
def demoSpring : LinearSpring :=
  { _model := some demoModel
    _on := true
    _startTime := 0
    _endTime := 10
    _body := { index := 0 }
    _point := Vec3.zeros
    _force := Vec3.zeros
    _pointFunction := none
    _recordAppliedLoads := true
    _appliedForceStore := { rows := [] }
    _targetPosition := some demoTarget
    _targetVelocity := none
    _scaleFunction := none
    _scaleFactor := 1
    _threshold := 0
    _k := ![10, 0, 0]
    _b := ![0, 0, 0] }

/-- A local attachment point that moves along the y axis: `(0,t,0)`. -/
def demoPoint : VectorFunction :=
  { evaluate := fun t => ![0, t, 0], evaluateDeriv := fun _ _ => ![0, 1, 0] }

/-- The end-to-end scenario with a local attachment-point function bound. -/
def pointSpring : LinearSpring := { demoSpring with _pointFunction := some demoPoint }

/-- The end-to-end scenario without a model: `_model` is `NULL`. -/
def unboundSpring : LinearSpring := { demoSpring with _model := none }

/-- The end-to-end scenario without a target: `_targetPosition` is `NULL`. -/
def noTargetSpring : LinearSpring := { demoSpring with _targetPosition := none }

/-- A model with time normalization constant 2. -/
def fastModel : Model :=
  { timeNormConstant := 2, numCoordinates := 1, numSpeeds := 1, dynamicsEngine := demoEngine }

/-- A target that rests at `(1.5,0,0)`. -/
def restingTarget : VectorFunction :=
  { evaluate := fun _ => ![3 / 2, 0, 0], evaluateDeriv := fun _ _ => ![0, 0, 0] }

/-- The scale function `x ↦ x` (with derivative 1 and higher derivatives 0). -/
def rampScale : Function :=
  { evaluate := fun aDerivOrder x => if aDerivOrder = 0 then x else if aDerivOrder = 1 then 1 else 0 }

/-- The scenario actuator on the model with time normalization constant 2, with
the resting target, the scale function `x ↦ x` and the stored scale factor 1. -/
def scaledSpring : LinearSpring :=
  { demoSpring with
    _model := some fastModel
    _targetPosition := some restingTarget
    _scaleFunction := some rampScale }

/-- A target on the parabola `(t*t,0,0)`, with derivative `(2*t,0,0)`. -/
def parabolaTarget : VectorFunction :=
  { evaluate := fun t => ![t * t, 0, 0], evaluateDeriv := fun t _ => ![2 * t, 0, 0] }

/-- An actuator with damping only, `k=(0,0,0)` and `b=(1,0,0)`, on the model
with time normalization constant 2, tracking the parabola with no
target-velocity function bound. -/
def damperSpring : LinearSpring :=
  { demoSpring with
    _model := some fastModel
    _targetPosition := some parabolaTarget
    _k := ![0, 0, 0]
    _b := ![1, 0, 0] }

/-- A history of 40 samples of one value each. -/
def history40 : Storage := { rows := List.replicate 40 (0, [0]) }

/-- A spline constructor that only keeps the first and the last knot: the
result is the constant `(first time, last time, number of knots)`. -/
def knotSpline (_n size : Int) (time _c0 _c1 _c2 : List ℚ) : VectorFunction :=
  { evaluate := fun _ => ![time.headD 0, time.getLastD 0, (size : ℚ)]
    evaluateDeriv := fun _ _ => ![0, 0, 0] }

namespace LinearSpring

/-! ## The two ways through the active path -/

theorem forceWith_eq (multiplier : ℚ) (k b dx dv : Vec3) :
    forceWith multiplier k b dx dv = fun i => multiplier * (k i * dx i + b i * dv i) := rfl

theorem applyActuation_suppressed (Magnitude : Nat → Vec3 → ℚ) (s : LinearSpring)
    (model : Model) (aT : ℚ) (hr : ReachesForceComputation s model aT)
    (hg : ¬ PassesGate Magnitude s (forceLaw s model aT)) :
    applyActuation Magnitude s aT = Except.ok (storedState s model aT) := by
  obtain ⟨hm, hon, h1, h2⟩ := hr
  obtain ⟨m0, on0, st0, en0, body, point, force, pf, rec0, store, tp, tv, sf, sc, th, k, b⟩ := s
  simp only [getOn, getStartTime, getEndTime] at hm hon h1 h2
  subst hm hon
  cases pf <;> cases tp <;> cases tv <;> cases sf <;>
    simp [applyActuation, storedState, forceLaw, forceWith_eq, scaleMultiplier, PassesGate,
      positionError, velocityError,
      targetPosition, targetVelocity, globalPosition, globalVelocity, localPoint,
      queryTime, Mtx.Subtract, setPoint, setForce, setScaleFactor, getOn, getStartTime,
      getEndTime, Model.getTimeNormConstant, Model.getDynamicsEngine, h1, h2] at hg ⊢ <;>
    simp [hg]

theorem applyActuation_applied (Magnitude : Nat → Vec3 → ℚ) (s : LinearSpring)
    (model : Model) (aT : ℚ) (hr : ReachesForceComputation s model aT)
    (hg : PassesGate Magnitude s (forceLaw s model aT)) :
    applyActuation Magnitude s aT = Except.ok (appliedState s model aT) := by
  obtain ⟨hm, hon, h1, h2⟩ := hr
  obtain ⟨m0, on0, st0, en0, body, point, force, pf, rec0, store, tp, tv, sf, sc, th, k, b⟩ := s
  simp only [getOn, getStartTime, getEndTime] at hm hon h1 h2
  subst hm hon
  cases pf <;> cases tp <;> cases tv <;> cases sf <;> cases rec0 <;>
    simp [applyActuation, appliedState, storedState, forceLaw, forceWith_eq, scaleMultiplier,
      PassesGate, positionError, velocityError,
      targetPosition, targetVelocity, globalPosition, globalVelocity, localPoint,
      queryTime, Mtx.Subtract, setPoint, setForce, setScaleFactor, getOn, getStartTime,
      getEndTime, Model.getTimeNormConstant, Model.getDynamicsEngine, h1, h2] at hg ⊢ <;>
    simp [hg]

/-- An active-path call returns, with one of the two states above. -/
theorem applyActuation_active (Magnitude : Nat → Vec3 → ℚ) (s : LinearSpring)
    (model : Model) (aT : ℚ) (hr : ReachesForceComputation s model aT) :
    (PassesGate Magnitude s (forceLaw s model aT) ∧
        applyActuation Magnitude s aT = Except.ok (appliedState s model aT)) ∨
      (¬ PassesGate Magnitude s (forceLaw s model aT) ∧
        applyActuation Magnitude s aT = Except.ok (storedState s model aT)) := by
  by_cases hg : PassesGate Magnitude s (forceLaw s model aT)
  · exact Or.inl ⟨hg, applyActuation_applied Magnitude s model aT hr hg⟩
  · exact Or.inr ⟨hg, applyActuation_suppressed Magnitude s model aT hr hg⟩

/-- Outside the active path a call on an actuator with a model returns the
state it was given. -/
theorem applyActuation_inactive (Magnitude : Nat → Vec3 → ℚ) (s : LinearSpring)
    (model : Model) (aT : ℚ) (hm : s._model = some model)
    (hn : ¬ ReachesForceComputation s model aT) :
    applyActuation Magnitude s aT = Except.ok s := by
  by_cases hon : s.getOn = true
  · have hw : ¬ (s.getStartTime ≤ aT ∧ aT < s.getEndTime) :=
      fun hw => hn ⟨hm, hon, hw.1, hw.2⟩
    simp [applyActuation, hm, hon, hw]
  · simp [applyActuation, hm, hon]

/-- The gate of the code compares the magnitude itself with the threshold. -/
theorem passesGate_iff (Magnitude : Nat → Vec3 → ℚ) (hM : IsMagnitude Magnitude)
    (s : LinearSpring) (v : Vec3) :
    PassesGate Magnitude s v ↔ s._threshold ≤ Magnitude 3 v := by
  unfold PassesGate fabs
  rw [abs_of_nonneg (hM v).1]

theorem applyForceCalls_appliedState (s : LinearSpring) (model : Model) (aT : ℚ)
    (hm : s._model = some model) :
    ForceApplied s (appliedState s model aT) (localPoint s (queryTime model aT))
      (forceLaw s model aT) := by
  simp [ForceApplied, applyForceCalls, appliedState, storedState, hm,
    AbstractDynamicsEngine.applyForce]

theorem appliedForceLog_appliedState (s : LinearSpring) (model : Model) (aT : ℚ) :
    appliedForceLog (appliedState s model aT) =
      appliedForceLog s ++
        (if s._recordAppliedLoads = true then
          [(aT, [forceLaw s model aT 0, forceLaw s model aT 1, forceLaw s model aT 2])]
        else []) := by
  cases hrec : s._recordAppliedLoads <;>
    simp [appliedForceLog, appliedState, storedState, hrec, Storage.append, Vec3.toData,
      List.ofFn_succ]

theorem forceSuppressed_storedState (s : LinearSpring) (model : Model) (aT : ℚ) :
    ForceSuppressed s (storedState s model aT) :=
  ⟨rfl, rfl⟩

theorem not_forceApplied_of_suppressed (s s1 : LinearSpring) (point force : Vec3)
    (h : ForceSuppressed s s1) : ¬ ForceApplied s s1 point force := by
  intro ha
  have hl := congrArg List.length (h.1.symm.trans ha)
  simp at hl

/-! ## The sample loop and the padding -/

theorem computeTargetFunctionsLoop_sizes (s : LinearSpring) (nq nu : Nat)
    (aQStoreForTarget aUStoreForTarget : Storage) (pf : VectorFunction)
    (hpf : s._pointFunction = some pf) (l : List Nat) :
    ∀ st : TargetScan,
      ∃ scan, computeTargetFunctionsLoop s nq nu aQStoreForTarget aUStoreForTarget l st =
          Except.ok scan ∧
        scan.pGlobalStore.getSize = st.pGlobalStore.getSize + (l.length : Int) ∧
        scan.vGlobalStore.getSize = st.vGlobalStore.getSize + (l.length : Int) := by
  induction l with
  | nil =>
    intro st
    exact ⟨st, rfl, by simp, by simp⟩
  | cons i rest ih =>
    intro st
    have hstep : ∃ st1, computeTargetFunctionsStep s nq nu aQStoreForTarget aUStoreForTarget
        st i = Except.ok st1 ∧
        st1.pGlobalStore.getSize = st.pGlobalStore.getSize + 1 ∧
        st1.vGlobalStore.getSize = st.vGlobalStore.getSize + 1 := by
      simp only [computeTargetFunctionsStep, hpf]
      exact ⟨_, rfl, by simp [Storage.getSize, Storage.append],
        by simp [Storage.getSize, Storage.append]⟩
    obtain ⟨st1, h1, hp1, hv1⟩ := hstep
    obtain ⟨scan, h2, hp2, hv2⟩ := ih st1
    refine ⟨scan, ?_, ?_, ?_⟩
    · simp only [computeTargetFunctionsLoop, h1, h2]
    · rw [hp2, hp1]
      simp only [List.length_cons, Nat.cast_add, Nat.cast_one]
      ring
    · rw [hv2, hv1]
      simp only [List.length_cons, Nat.cast_add, Nat.cast_one]
      ring

theorem getSize_pad (st : Storage) (n : Int) (hn : 0 ≤ n) (hempty : st.getSize = 0 → n = 0) :
    (st.pad n).getSize = st.getSize + 2 * n := by
  obtain ⟨rows⟩ := st
  cases rows with
  | nil =>
    have h0 : n = 0 := hempty rfl
    subst h0
    rfl
  | cons row rest =>
    have hlast : ∃ last, (row :: rest).getLast? = some last :=
      ⟨_, List.getLast?_eq_getLast _ (List.cons_ne_nil _ _)⟩
    obtain ⟨last, hl⟩ := hlast
    simp only [Storage.pad, List.head?_cons, hl, Storage.getSize, List.length_append,
      List.length_replicate, List.length_cons, Nat.cast_add, Nat.cast_one,
      Int.toNat_of_nonneg hn]
    ring

/-- The pad length of the code, `size / 4` cut off at 100, is
`min(100, floor(size/4))` for every size that is not negative. -/
theorem padSize_eq (size : Int) (hsize : 0 ≤ size) :
    (if Int.tdiv size 4 > 100 then 100 else Int.tdiv size 4) = min 100 (size / 4) := by
  rw [Int.tdiv_eq_ediv hsize (by decide)]
  split <;> omega

end LinearSpring

theorem isMagnitude_sqrtMagnitude : LinearSpring.IsMagnitude sqrtMagnitude := by
  intro v
  have h3 : sqrtMagnitude 3 v = Rat.sqrt (v 0 * v 0 + v 1 * v 1 + v 2 * v 2) := by
    simp [sqrtMagnitude, List.ofFn_succ, add_assoc]
  refine ⟨by rw [h3]; exact Rat.sqrt_nonneg _, ?_⟩
  intro m hm0 hm
  rw [h3, ← hm, Rat.sqrt_eq, abs_of_nonneg hm0]

/-! ## Facts about the concrete inputs -/

theorem demoSpring_reaches : LinearSpring.ReachesForceComputation demoSpring demoModel (3 / 2) := by
  refine ⟨rfl, rfl, ?_, ?_⟩ <;> norm_num [demoSpring, LinearSpring.getStartTime,
    LinearSpring.getEndTime]

theorem demoSpring_forceLaw : LinearSpring.forceLaw demoSpring demoModel (3 / 2) = ![5, 0, 0] := by
  funext i
  fin_cases i <;>
    norm_num [LinearSpring.forceLaw, LinearSpring.forceWith, LinearSpring.positionError,
      LinearSpring.velocityError, LinearSpring.scaleMultiplier, LinearSpring.targetPosition,
      LinearSpring.targetVelocity, LinearSpring.globalPosition, LinearSpring.globalVelocity,
      LinearSpring.localPoint, LinearSpring.queryTime, AbstractDynamicsEngine.getPosition,
      AbstractDynamicsEngine.getVelocity, demoSpring, demoModel, demoEngine, demoTarget]

theorem sqrtMagnitude_axis (a : ℚ) : sqrtMagnitude 3 ![a, 0, 0] = |a| := by
  have h : sqrtMagnitude 3 ![a, 0, 0] = Rat.sqrt (a * a) := by
    simp [sqrtMagnitude, List.ofFn_succ]
  rw [h, Rat.sqrt_eq]

theorem pointSpring_reaches :
    LinearSpring.ReachesForceComputation pointSpring demoModel (3 / 2) := by
  refine ⟨rfl, rfl, ?_, ?_⟩ <;> norm_num [pointSpring, demoSpring, LinearSpring.getStartTime,
    LinearSpring.getEndTime]

theorem pointSpring_forceLaw :
    LinearSpring.forceLaw pointSpring demoModel (3 / 2) = ![5, 0, 0] := by
  funext i
  fin_cases i <;>
    norm_num [LinearSpring.forceLaw, LinearSpring.forceWith, LinearSpring.positionError,
      LinearSpring.velocityError, LinearSpring.scaleMultiplier, LinearSpring.targetPosition,
      LinearSpring.targetVelocity, LinearSpring.globalPosition, LinearSpring.globalVelocity,
      LinearSpring.localPoint, LinearSpring.queryTime, AbstractDynamicsEngine.getPosition,
      AbstractDynamicsEngine.getVelocity, pointSpring, demoSpring, demoModel, demoEngine,
      demoTarget]

theorem noTargetSpring_reaches :
    LinearSpring.ReachesForceComputation noTargetSpring demoModel (3 / 2) := by
  refine ⟨rfl, rfl, ?_, ?_⟩ <;> norm_num [noTargetSpring, demoSpring,
    LinearSpring.getStartTime, LinearSpring.getEndTime]

theorem noTargetSpring_forceLaw :
    LinearSpring.forceLaw noTargetSpring demoModel (3 / 2) = ![-10, 0, 0] := by
  funext i
  fin_cases i <;>
    norm_num [LinearSpring.forceLaw, LinearSpring.forceWith, LinearSpring.positionError,
      LinearSpring.velocityError, LinearSpring.scaleMultiplier, LinearSpring.targetPosition,
      LinearSpring.targetVelocity, LinearSpring.globalPosition, LinearSpring.globalVelocity,
      LinearSpring.localPoint, LinearSpring.queryTime, AbstractDynamicsEngine.getPosition,
      AbstractDynamicsEngine.getVelocity, noTargetSpring, demoSpring, demoModel, demoEngine,
      Vec3.zeros]

theorem scaledSpring_reaches :
    LinearSpring.ReachesForceComputation scaledSpring fastModel 1 := by
  refine ⟨rfl, rfl, ?_, ?_⟩ <;> norm_num [scaledSpring, demoSpring,
    LinearSpring.getStartTime, LinearSpring.getEndTime]

theorem scaledSpring_errors :
    LinearSpring.positionError scaledSpring fastModel 1 = ![1 / 2, 0, 0] ∧
      LinearSpring.velocityError scaledSpring fastModel 1 = ![0, 0, 0] := by
  constructor <;> funext i <;> fin_cases i <;>
    norm_num [LinearSpring.positionError, LinearSpring.velocityError,
      LinearSpring.targetPosition, LinearSpring.targetVelocity, LinearSpring.globalPosition,
      LinearSpring.globalVelocity, LinearSpring.localPoint, LinearSpring.queryTime,
      AbstractDynamicsEngine.getPosition, AbstractDynamicsEngine.getVelocity, scaledSpring,
      demoSpring, fastModel, demoEngine, restingTarget]

theorem damperSpring_reaches :
    LinearSpring.ReachesForceComputation damperSpring fastModel 1 := by
  refine ⟨rfl, rfl, ?_, ?_⟩ <;> norm_num [damperSpring, demoSpring,
    LinearSpring.getStartTime, LinearSpring.getEndTime]

/-! ## The claims -/

namespace LinearSpring

/-- C1.  Every call that reaches the force computation (model bound, actuator
on, `startTime <= t < endTime`) returns, and on every axis `i` the force it
computed and stored is `scaleFactor * (k[i]*dx[i] + b[i]*dv[i])`, where
`scaleFactor` is the scale factor in force after the call (the multiplier of the
call), `dx[i]` is target position minus global position on axis `i` and `dv[i]`
is target velocity minus global velocity on axis `i`.  No gain or error of
another axis occurs in component `i`: two calls that agree on the multiplier and
on `k[i]`, `b[i]`, `dx[i]`, `dv[i]` compute the same component `i`. -/
theorem C1_force_law_per_axis (Magnitude : Nat → Vec3 → ℚ) (s : LinearSpring)
    (model : Model) (aT : ℚ) (hr : ReachesForceComputation s model aT) :
    ∃ s1, applyActuation Magnitude s aT = Except.ok s1 ∧
      s1._scaleFactor = scaleMultiplier s (queryTime model aT) ∧
      (∀ i : Fin 3, s1._force i =
        s1._scaleFactor *
          (s._k i *
              (targetPosition s (queryTime model aT) i -
                globalPosition s model (queryTime model aT) i) +
            s._b i *
              (targetVelocity s (queryTime model aT) i -
                globalVelocity s model (queryTime model aT) i))) ∧
      (∀ (i : Fin 3) (s2 : LinearSpring) (model2 : Model) (aT2 : ℚ) (s3 : LinearSpring),
        ReachesForceComputation s2 model2 aT2 →
        applyActuation Magnitude s2 aT2 = Except.ok s3 →
        s3._scaleFactor = s1._scaleFactor → s2._k i = s._k i → s2._b i = s._b i →
        positionError s2 model2 aT2 i = positionError s model aT i →
        velocityError s2 model2 aT2 i = velocityError s model aT i →
        s3._force i = s1._force i) := by
  have key : ∀ (t : LinearSpring) (m : Model) (a : ℚ) (t1 : LinearSpring),
      ReachesForceComputation t m a → applyActuation Magnitude t a = Except.ok t1 →
      t1._scaleFactor = scaleMultiplier t (queryTime m a) ∧ t1._force = forceLaw t m a := by
    intro t m a t1 ht h1
    rcases applyActuation_active Magnitude t m a ht with h | h
    · rw [h.2] at h1
      cases h1
      exact ⟨rfl, rfl⟩
    · rw [h.2] at h1
      cases h1
      exact ⟨rfl, rfl⟩
  have hex : ∃ s1, applyActuation Magnitude s aT = Except.ok s1 := by
    rcases applyActuation_active Magnitude s model aT hr with h | h
    · exact ⟨_, h.2⟩
    · exact ⟨_, h.2⟩
  obtain ⟨s1, h1⟩ := hex
  obtain ⟨hsc, hf⟩ := key s model aT s1 hr h1
  refine ⟨s1, h1, hsc, ?_, ?_⟩
  · intro i
    rw [hf, hsc]
    rfl
  · intro i s2 model2 aT2 s3 hr2 h3 hsc2 hk hb hdx hdv
    obtain ⟨hsc3, hf3⟩ := key s2 model2 aT2 s3 hr2 h3
    rw [hf3, hf]
    show scaleMultiplier s2 (queryTime model2 aT2) *
        (s2._k i * positionError s2 model2 aT2 i + s2._b i * velocityError s2 model2 aT2 i) =
      scaleMultiplier s (queryTime model aT) *
        (s._k i * positionError s model aT i + s._b i * velocityError s model aT i)
    rw [← hsc3, ← hsc, hsc2, hk, hb, hdx, hdv]

/-- The end-to-end scenario of the specification: with `k=(10,0,0)`,
`b=(0,0,0)`, scale factor 1, target `(1.5,0,0)` and global position `(1,0,0)`
the force is `(5,0,0)`. -/
theorem C1_force_law_per_axis_witness :
    ReachesForceComputation demoSpring demoModel (3 / 2) ∧
      ∃ s1, applyActuation sqrtMagnitude demoSpring (3 / 2) = Except.ok s1 ∧
        s1._force = ![5, 0, 0] := by
  obtain ⟨s1, h1, hsc, hf, _⟩ :=
    C1_force_law_per_axis sqrtMagnitude demoSpring demoModel (3 / 2) demoSpring_reaches
  refine ⟨demoSpring_reaches, s1, h1, ?_⟩
  funext i
  rw [hf i, hsc]
  fin_cases i <;>
    norm_num [scaleMultiplier, targetPosition, targetVelocity, globalPosition, globalVelocity,
      localPoint, queryTime, AbstractDynamicsEngine.getPosition,
      AbstractDynamicsEngine.getVelocity, demoSpring, demoModel, demoEngine, demoTarget]

/-- The threshold gate, in the parts that do not depend on the rationals
having no NaN.  In every call that reaches the force computation the engine
receives the force (one `applyForce` call for the body, at the local attachment
point, with the computed force) if and only if the threshold is at most the
magnitude, and there is no engine call and no log entry if and only if it is
not; for thresholds `threshold_a < magnitude < threshold_b` and everything else
equal, the force is applied under `threshold_a` and suppressed under
`threshold_b`.  Nothing is said here about a threshold `<= 0`: in double
arithmetic the force of line 437 can be NaN, and then the comparison of line
446 fails for every threshold. -/
theorem applyActuation_threshold_gate (Magnitude : Nat → Vec3 → ℚ)
    (hM : IsMagnitude Magnitude) (s : LinearSpring) (model : Model) (aT : ℚ)
    (hr : ReachesForceComputation s model aT) :
    (∃ s1, applyActuation Magnitude s aT = Except.ok s1 ∧
      (ForceApplied s s1 (localPoint s (queryTime model aT)) (forceLaw s model aT) ↔
        s._threshold ≤ Magnitude 3 (forceLaw s model aT)) ∧
      (ForceSuppressed s s1 ↔ ¬ s._threshold ≤ Magnitude 3 (forceLaw s model aT))) ∧
    ∀ threshold_a threshold_b : ℚ,
      threshold_a < Magnitude 3 (forceLaw s model aT) →
      Magnitude 3 (forceLaw s model aT) < threshold_b →
      (∃ sa, applyActuation Magnitude (s.setThreshold threshold_a) aT = Except.ok sa ∧
        ForceApplied s sa (localPoint s (queryTime model aT)) (forceLaw s model aT)) ∧
      (∃ sb, applyActuation Magnitude (s.setThreshold threshold_b) aT = Except.ok sb ∧
        ForceSuppressed s sb) := by
  have hm : s._model = some model := hr.1
  have gate : ∀ th : ℚ,
      (th ≤ Magnitude 3 (forceLaw s model aT) →
        ∃ s1, applyActuation Magnitude (s.setThreshold th) aT = Except.ok s1 ∧
          ForceApplied s s1 (localPoint s (queryTime model aT)) (forceLaw s model aT)) ∧
      (¬ th ≤ Magnitude 3 (forceLaw s model aT) →
        ∃ s1, applyActuation Magnitude (s.setThreshold th) aT = Except.ok s1 ∧
          ForceSuppressed s s1) := by
    intro th
    have hr1 : ReachesForceComputation (s.setThreshold th) model aT := hr
    constructor
    · intro hle
      have hg : PassesGate Magnitude (s.setThreshold th) (forceLaw (s.setThreshold th) model aT) :=
        (passesGate_iff Magnitude hM _ _).mpr hle
      exact ⟨_, applyActuation_applied Magnitude _ model aT hr1 hg,
        applyForceCalls_appliedState (s.setThreshold th) model aT hm⟩
    · intro hlt
      have hg : ¬ PassesGate Magnitude (s.setThreshold th)
          (forceLaw (s.setThreshold th) model aT) := by
        rw [passesGate_iff Magnitude hM]
        exact hlt
      exact ⟨_, applyActuation_suppressed Magnitude _ model aT hr1 hg,
        forceSuppressed_storedState (s.setThreshold th) model aT⟩
  have hself : s.setThreshold s._threshold = s := rfl
  refine ⟨?_, fun tha thb ha hb => ⟨(gate tha).1 ha.le, (gate thb).2 (not_le.mpr hb)⟩⟩
  by_cases hle : s._threshold ≤ Magnitude 3 (forceLaw s model aT)
  · obtain ⟨s1, h1, happ⟩ := (gate s._threshold).1 hle
    rw [hself] at h1
    refine ⟨s1, h1, ⟨fun _ => hle, fun _ => happ⟩, ⟨fun hs => ?_, fun hn => ?_⟩⟩
    · exact absurd happ (not_forceApplied_of_suppressed s s1 _ _ hs)
    · exact absurd hle hn
  · obtain ⟨s1, h1, hsup⟩ := (gate s._threshold).2 hle
    rw [hself] at h1
    refine ⟨s1, h1, ⟨fun happ => ?_, fun h => ?_⟩, ⟨fun _ => hle, fun _ => hsup⟩⟩
    · exact absurd happ (not_forceApplied_of_suppressed s s1 _ _ hsup)
    · exact absurd h hle

/-- With a model bound, a call at a time outside the activation window
returns the state it was given: no engine call, no log entry, force, point and
scale factor as before. -/
theorem applyActuation_outside_window (Magnitude : Nat → Vec3 → ℚ) (s : LinearSpring)
    (model : Model) (aT : ℚ) (hm : s._model = some model)
    (ht : aT < s.getStartTime ∨ s.getEndTime ≤ aT) :
    applyActuation Magnitude s aT = Except.ok s := by
  apply applyActuation_inactive Magnitude s model aT hm
  rintro ⟨_, _, h1, h2⟩
  rcases ht with ht | ht
  · exact absurd h1 (not_le.mpr ht)
  · exact absurd h2 (not_lt.mpr ht)

/-- C3 at its failing input.  The actuator has no model and the time 20 lies
outside the window `[0,10)`: the call does not return the state unchanged, it
stops at the use of the null `_model` in the first statement of the body. -/
theorem C3_outside_window_null_model :
    unboundSpring._model = none ∧ unboundSpring.getEndTime ≤ 20 ∧
      applyActuation sqrtMagnitude unboundSpring 20 = Except.error Fault.nullModel := by
  refine ⟨rfl, ?_, rfl⟩
  norm_num [unboundSpring, demoSpring, getEndTime]

/-- C4 at its failing inputs.  On every actuator without a model, at every
time, the call stops at the use of the null `_model` in the first statement of
the body; the guard that would warn and return is never reached. -/
theorem C4_null_model_faults (Magnitude : Nat → Vec3 → ℚ) (s : LinearSpring) (aT : ℚ) :
    applyActuation Magnitude { s with _model := none } aT = Except.error Fault.nullModel :=
  rfl

/-- C5 as stated fails.  The enabled actuator of the end-to-end scenario
without a target-position function, called inside its window at `t = 1.5`: the
engine receives the force `(-10,0,0)` and the log receives the row
`(1.5, (-10,0,0))`. -/
theorem C5_no_target_counterexample :
    noTargetSpring._targetPosition = none ∧
      ReachesForceComputation noTargetSpring demoModel (3 / 2) ∧
      applyForceCalls noTargetSpring = [] ∧ appliedForceLog noTargetSpring = [] ∧
      ∃ s1, applyActuation sqrtMagnitude noTargetSpring (3 / 2) = Except.ok s1 ∧
        applyForceCalls s1 = [({ index := 0 }, Vec3.zeros, ![-10, 0, 0])] ∧
        appliedForceLog s1 = [(3 / 2, [-10, 0, 0])] := by
  have hg : PassesGate sqrtMagnitude noTargetSpring
      (forceLaw noTargetSpring demoModel (3 / 2)) := by
    unfold PassesGate fabs
    exact abs_nonneg _
  refine ⟨rfl, noTargetSpring_reaches, rfl, rfl, _,
    applyActuation_applied sqrtMagnitude noTargetSpring demoModel (3 / 2)
      noTargetSpring_reaches hg, ?_, ?_⟩
  · have h := applyForceCalls_appliedState noTargetSpring demoModel (3 / 2) rfl
    rw [ForceApplied, noTargetSpring_forceLaw] at h
    rw [h]
    rfl
  · rw [appliedForceLog_appliedState, noTargetSpring_forceLaw]
    simp [appliedForceLog, noTargetSpring, demoSpring]

/-- C5 as amended.  A call that reaches the force computation while no
target-position function is bound goes on with the zero vector as target
position and as target velocity: on every axis the stored force is
`scaleFactor * (k[i]*(0 - globalPosition[i]) + b[i]*(0 - globalVelocity[i]))`,
and the threshold gate decides as in every other call: behind the gate the
engine receives that force and, when loads are recorded, the log receives the
row of the call time and the force; otherwise there is no engine call and no log
entry. -/
theorem C5_no_target_proceeds (Magnitude : Nat → Vec3 → ℚ) (s : LinearSpring)
    (model : Model) (aT : ℚ) (hr : ReachesForceComputation s model aT)
    (hnt : s._targetPosition = none) :
    ∃ s1, applyActuation Magnitude s aT = Except.ok s1 ∧
      s1._scaleFactor = scaleMultiplier s (queryTime model aT) ∧
      (∀ i : Fin 3, s1._force i =
        s1._scaleFactor *
          (s._k i * (0 - globalPosition s model (queryTime model aT) i) +
            s._b i * (0 - globalVelocity s model (queryTime model aT) i))) ∧
      (PassesGate Magnitude s s1._force →
        ForceApplied s s1 (localPoint s (queryTime model aT)) s1._force ∧
          appliedForceLog s1 = appliedForceLog s ++
            (if s._recordAppliedLoads = true then
              [(aT, [s1._force 0, s1._force 1, s1._force 2])] else [])) ∧
      (¬ PassesGate Magnitude s s1._force → ForceSuppressed s s1) := by
  have hf : ∀ i : Fin 3, forceLaw s model aT i =
      scaleMultiplier s (queryTime model aT) *
        (s._k i * (0 - globalPosition s model (queryTime model aT) i) +
          s._b i * (0 - globalVelocity s model (queryTime model aT) i)) := by
    intro i
    simp [forceLaw, forceWith, positionError, velocityError, targetPosition, targetVelocity,
      hnt, Vec3.zeros]
  rcases applyActuation_active Magnitude s model aT hr with h | h
  · exact ⟨_, h.2, rfl, hf,
      fun _ => ⟨applyForceCalls_appliedState s model aT hr.1,
        appliedForceLog_appliedState s model aT⟩,
      fun hn => absurd h.1 hn⟩
  · exact ⟨_, h.2, rfl, hf, fun hg => absurd hg h.1,
      fun _ => forceSuppressed_storedState s model aT⟩

/-- Without a target the scenario actuator stores the force `(-10,0,0)`, which
pulls the point at `(1,0,0)` towards the origin. -/
theorem C5_no_target_proceeds_witness :
    ReachesForceComputation noTargetSpring demoModel (3 / 2) ∧
      noTargetSpring._targetPosition = none ∧
      ∃ s1, applyActuation sqrtMagnitude noTargetSpring (3 / 2) = Except.ok s1 ∧
        s1._force = ![-10, 0, 0] := by
  obtain ⟨s1, h1, hsc, hf, _, _⟩ :=
    C5_no_target_proceeds sqrtMagnitude noTargetSpring demoModel (3 / 2)
      noTargetSpring_reaches rfl
  refine ⟨noTargetSpring_reaches, rfl, s1, h1, ?_⟩
  funext i
  rw [hf i, hsc]
  fin_cases i <;>
    norm_num [scaleMultiplier, globalPosition, globalVelocity, localPoint, queryTime,
      AbstractDynamicsEngine.getPosition, AbstractDynamicsEngine.getVelocity, noTargetSpring,
      demoSpring, demoModel, demoEngine]

/-- C6 as stated fails.  On a model with time normalization constant 2 the call
at `t = 1` with the scale function `x ↦ x` bound uses the multiplier 2, the value
of the scale function at `t * 2`, and stores the force `(10,0,0)`; the value of
the scale function at `t` is 1, which would give `(5,0,0)`. -/
theorem C6_scale_at_call_time_counterexample :
    ReachesForceComputation scaledSpring fastModel 1 ∧
      scaledSpring._scaleFunction = some rampScale ∧ rampScale.evaluate 0 1 = 1 ∧
      forceWith (rampScale.evaluate 0 1) scaledSpring._k scaledSpring._b
          (positionError scaledSpring fastModel 1) (velocityError scaledSpring fastModel 1) =
        ![5, 0, 0] ∧
      ∃ s1, applyActuation sqrtMagnitude scaledSpring 1 = Except.ok s1 ∧
        s1._scaleFactor = 2 ∧ s1._force = ![10, 0, 0] ∧
        s1._force ≠
          forceWith (rampScale.evaluate 0 1) scaledSpring._k scaledSpring._b
            (positionError scaledSpring fastModel 1) (velocityError scaledSpring fastModel 1) := by
  have hforce : forceLaw scaledSpring fastModel 1 = ![10, 0, 0] := by
    unfold forceLaw
    rw [scaledSpring_errors.1, scaledSpring_errors.2]
    funext i
    fin_cases i <;>
      norm_num [forceWith, scaleMultiplier, queryTime, scaledSpring, demoSpring, fastModel,
        rampScale]
  have hscale : scaleMultiplier scaledSpring (queryTime fastModel 1) = 2 := by
    norm_num [scaleMultiplier, queryTime, scaledSpring, fastModel, rampScale]
  have hclaimed : forceWith (rampScale.evaluate 0 1) scaledSpring._k scaledSpring._b
      (positionError scaledSpring fastModel 1) (velocityError scaledSpring fastModel 1) =
      ![5, 0, 0] := by
    rw [scaledSpring_errors.1, scaledSpring_errors.2]
    funext i
    fin_cases i <;> norm_num [forceWith, scaledSpring, demoSpring, rampScale]
  have hne : (![10, 0, 0] : Vec3) ≠ ![5, 0, 0] := by
    intro h
    have h0 := congrFun h 0
    norm_num at h0
  refine ⟨scaledSpring_reaches, rfl, by simp [rampScale], hclaimed, ?_⟩
  rw [hclaimed]
  rcases applyActuation_active sqrtMagnitude scaledSpring fastModel 1 scaledSpring_reaches
    with h | h
  · exact ⟨_, h.2, hscale, hforce, by rw [show (appliedState scaledSpring fastModel 1)._force =
      forceLaw scaledSpring fastModel 1 from rfl, hforce]; exact hne⟩
  · exact ⟨_, h.2, hscale, hforce, by rw [show (storedState scaledSpring fastModel 1)._force =
      forceLaw scaledSpring fastModel 1 from rfl, hforce]; exact hne⟩

/-- C6 as amended.  In every active-path call with a scale function bound, the
multiplier of the force law is the value of the scale function (derivative order
0) at the call time scaled by the model's time normalization constant, whatever
scale factor was stored before; that value is stored as the new scale factor.
With no scale function bound the multiplier is the stored scale factor, which
`setNull`, run by the constructor, sets to 1 while it unbinds the scale
function. -/
theorem C6_scale_multiplier (Magnitude : Nat → Vec3 → ℚ) (s : LinearSpring)
    (model : Model) (aT : ℚ) (hr : ReachesForceComputation s model aT) :
    (∀ sf : Function, s._scaleFunction = some sf → ∀ stored : ℚ,
      ∃ s1, applyActuation Magnitude (s.setScaleFactor stored) aT = Except.ok s1 ∧
        s1._scaleFactor = sf.evaluate 0 (aT * model.getTimeNormConstant) ∧
        s1._force =
          forceWith (sf.evaluate 0 (aT * model.getTimeNormConstant)) s._k s._b
            (positionError s model aT) (velocityError s model aT)) ∧
    (s._scaleFunction = none →
      ∃ s1, applyActuation Magnitude s aT = Except.ok s1 ∧
        s1._scaleFactor = s._scaleFactor ∧
        s1._force =
          forceWith s._scaleFactor s._k s._b (positionError s model aT)
            (velocityError s model aT)) ∧
    (s.setNull._scaleFactor = 1 ∧ s.setNull._scaleFunction = none) := by
  refine ⟨?_, ?_, rfl, rfl⟩
  · intro sf hsf stored
    have hr1 : ReachesForceComputation (s.setScaleFactor stored) model aT := hr
    have hmul : scaleMultiplier (s.setScaleFactor stored) (queryTime model aT) =
        sf.evaluate 0 (aT * model.getTimeNormConstant) := by
      have hsf1 : (s.setScaleFactor stored)._scaleFunction = some sf := hsf
      simp [scaleMultiplier, hsf1, queryTime, Model.getTimeNormConstant]
    have hf : forceLaw (s.setScaleFactor stored) model aT =
        forceWith (sf.evaluate 0 (aT * model.getTimeNormConstant)) s._k s._b
          (positionError s model aT) (velocityError s model aT) := by
      unfold forceLaw
      rw [hmul]
      rfl
    rcases applyActuation_active Magnitude (s.setScaleFactor stored) model aT hr1 with h | h
    · exact ⟨_, h.2, hmul, hf⟩
    · exact ⟨_, h.2, hmul, hf⟩
  · intro hnone
    have hmul : scaleMultiplier s (queryTime model aT) = s._scaleFactor := by
      simp [scaleMultiplier, hnone]
    have hf : forceLaw s model aT =
        forceWith s._scaleFactor s._k s._b (positionError s model aT)
          (velocityError s model aT) := by
      unfold forceLaw
      rw [hmul]
    rcases applyActuation_active Magnitude s model aT hr with h | h
    · exact ⟨_, h.2, hmul, hf⟩
    · exact ⟨_, h.2, hmul, hf⟩

/-- With the scale function `x ↦ x` and the time normalization constant 2, the
call at `t = 1` uses and stores the multiplier 2 although 7 was stored. -/
theorem C6_scale_multiplier_witness :
    ReachesForceComputation scaledSpring fastModel 1 ∧
      ∃ s1, applyActuation sqrtMagnitude (scaledSpring.setScaleFactor 7) 1 = Except.ok s1 ∧
        s1._scaleFactor = 2 ∧ s1._force = ![10, 0, 0] := by
  obtain ⟨s1, h1, hsc, hf⟩ :=
    (C6_scale_multiplier sqrtMagnitude scaledSpring fastModel 1 scaledSpring_reaches).1
      rampScale rfl 7
  refine ⟨scaledSpring_reaches, s1, h1, ?_, ?_⟩
  · rw [hsc]
    norm_num [rampScale, fastModel, Model.getTimeNormConstant]
  · rw [hf, scaledSpring_errors.1, scaledSpring_errors.2]
    funext i
    fin_cases i <;>
      norm_num [forceWith, scaledSpring, demoSpring, rampScale, fastModel,
        Model.getTimeNormConstant]

/-- C7 as stated fails.  On a model with time normalization constant 2 the
damper (`k=(0,0,0)`, `b=(1,0,0)`, multiplier 1) tracks the parabola `(t*t,0,0)`
with no target-velocity function bound and a point at rest.  The call at `t = 1`
stores the force `(4,0,0)`: its velocity error is the derivative of the target
at `t * 2`.  The derivative at `t` is `(2,0,0)` and would give `(2,0,0)`. -/
theorem C7_derivative_at_call_time_counterexample :
    ReachesForceComputation damperSpring fastModel 1 ∧
      damperSpring._targetPosition = some parabolaTarget ∧
      damperSpring._targetVelocity = none ∧
      forceWith 1 damperSpring._k damperSpring._b (positionError damperSpring fastModel 1)
          (fun i => parabolaTarget.evaluateDeriv 1 [0] i -
            globalVelocity damperSpring fastModel (queryTime fastModel 1) i) =
        ![2, 0, 0] ∧
      ∃ s1, applyActuation sqrtMagnitude damperSpring 1 = Except.ok s1 ∧
        s1._scaleFactor = 1 ∧ s1._force = ![4, 0, 0] ∧
        s1._force ≠
          forceWith 1 damperSpring._k damperSpring._b (positionError damperSpring fastModel 1)
            (fun i => parabolaTarget.evaluateDeriv 1 [0] i -
              globalVelocity damperSpring fastModel (queryTime fastModel 1) i) := by
  have hforce : forceLaw damperSpring fastModel 1 = ![4, 0, 0] := by
    funext i
    fin_cases i <;>
      norm_num [forceLaw, forceWith, positionError, velocityError, scaleMultiplier,
        targetPosition, targetVelocity, globalPosition, globalVelocity, localPoint, queryTime,
        AbstractDynamicsEngine.getPosition, AbstractDynamicsEngine.getVelocity, damperSpring,
        demoSpring, fastModel, demoEngine, parabolaTarget]
  have hclaimed : forceWith 1 damperSpring._k damperSpring._b
      (positionError damperSpring fastModel 1)
      (fun i => parabolaTarget.evaluateDeriv 1 [0] i -
        globalVelocity damperSpring fastModel (queryTime fastModel 1) i) = ![2, 0, 0] := by
    funext i
    fin_cases i <;>
      norm_num [forceWith, globalVelocity, AbstractDynamicsEngine.getVelocity, damperSpring,
        demoSpring, fastModel, demoEngine, parabolaTarget]
  have hne : (![4, 0, 0] : Vec3) ≠ ![2, 0, 0] := by
    intro h
    have h0 := congrFun h 0
    norm_num at h0
  refine ⟨damperSpring_reaches, rfl, rfl, hclaimed, ?_⟩
  rw [hclaimed]
  rcases applyActuation_active sqrtMagnitude damperSpring fastModel 1 damperSpring_reaches
    with h | h
  · exact ⟨_, h.2, rfl, hforce, by rw [show (appliedState damperSpring fastModel 1)._force =
      forceLaw damperSpring fastModel 1 from rfl, hforce]; exact hne⟩
  · exact ⟨_, h.2, rfl, hforce, by rw [show (storedState damperSpring fastModel 1)._force =
      forceLaw damperSpring fastModel 1 from rfl, hforce]; exact hne⟩

/-- C7 as amended.  In every active-path call with a target-position function
bound, the errors are taken at the query time, the call time scaled by the
model's time normalization constant: with no target-velocity function bound the
velocity error is the derivative of the target-position function at the query
time minus the global velocity; with a target-velocity function bound it is the
value of that function at the query time minus the global velocity.  Hence
whenever the bound target-velocity function equals the derivative of the
target-position function at the query time, the two configurations store the
same force. -/
theorem C7_velocity_fallback (Magnitude : Nat → Vec3 → ℚ) (s : LinearSpring)
    (model : Model) (aT : ℚ) (tp : VectorFunction)
    (hr : ReachesForceComputation s model aT) (htp : s._targetPosition = some tp) :
    ∃ s1, applyActuation Magnitude (s.setTargetVelocity none) aT = Except.ok s1 ∧
      s1._force =
        forceWith (scaleMultiplier s (queryTime model aT)) s._k s._b (positionError s model aT)
          (fun i => tp.evaluateDeriv (aT * model.getTimeNormConstant) [0] i -
            globalVelocity s model (queryTime model aT) i) ∧
      ∀ tv : VectorFunction,
        ∃ s2, applyActuation Magnitude (s.setTargetVelocity (some tv)) aT = Except.ok s2 ∧
          s2._force =
            forceWith (scaleMultiplier s (queryTime model aT)) s._k s._b
              (positionError s model aT)
              (fun i => tv.evaluate (aT * model.getTimeNormConstant) i -
                globalVelocity s model (queryTime model aT) i) ∧
          (tv.evaluate (aT * model.getTimeNormConstant) =
              tp.evaluateDeriv (aT * model.getTimeNormConstant) [0] →
            s2._force = s1._force) := by
  have stored : ∀ t : LinearSpring, ReachesForceComputation t model aT →
      ∃ t1, applyActuation Magnitude t aT = Except.ok t1 ∧ t1._force = forceLaw t model aT := by
    intro t ht
    rcases applyActuation_active Magnitude t model aT ht with h | h
    · exact ⟨_, h.2, rfl⟩
    · exact ⟨_, h.2, rfl⟩
  have hnone : forceLaw (s.setTargetVelocity none) model aT =
      forceWith (scaleMultiplier s (queryTime model aT)) s._k s._b (positionError s model aT)
        (fun i => tp.evaluateDeriv (aT * model.getTimeNormConstant) [0] i -
          globalVelocity s model (queryTime model aT) i) := by
    funext i
    simp [forceLaw, forceWith, positionError, velocityError, targetPosition, targetVelocity,
      scaleMultiplier, globalPosition, globalVelocity, localPoint, setTargetVelocity, htp,
      queryTime, Model.getTimeNormConstant]
  have hsome : ∀ tv : VectorFunction, forceLaw (s.setTargetVelocity (some tv)) model aT =
      forceWith (scaleMultiplier s (queryTime model aT)) s._k s._b (positionError s model aT)
        (fun i => tv.evaluate (aT * model.getTimeNormConstant) i -
          globalVelocity s model (queryTime model aT) i) := by
    intro tv
    funext i
    simp [forceLaw, forceWith, positionError, velocityError, targetPosition, targetVelocity,
      scaleMultiplier, globalPosition, globalVelocity, localPoint, setTargetVelocity, htp,
      queryTime, Model.getTimeNormConstant]
  obtain ⟨s1, h1, hf1⟩ := stored (s.setTargetVelocity none) hr
  refine ⟨s1, h1, hf1.trans hnone, fun tv => ?_⟩
  obtain ⟨s2, h2, hf2⟩ := stored (s.setTargetVelocity (some tv)) hr
  refine ⟨s2, h2, hf2.trans (hsome tv), fun heq => ?_⟩
  rw [hf2, hsome tv, hf1, hnone, heq]

/-- The damper on the parabola, on the model with time normalization constant
2: with no target-velocity function bound the call at `t = 1` stores the force
`(4,0,0)`, and so does the call with the target-velocity function `(2*t,0,0)`
bound. -/
theorem C7_velocity_fallback_witness :
    ReachesForceComputation damperSpring fastModel 1 ∧
      damperSpring._targetPosition = some parabolaTarget ∧
      (∃ s1, applyActuation sqrtMagnitude (damperSpring.setTargetVelocity none) 1 =
          Except.ok s1 ∧ s1._force = ![4, 0, 0]) ∧
      ∃ s2, applyActuation sqrtMagnitude
          (damperSpring.setTargetVelocity
            (some { evaluate := fun t => ![2 * t, 0, 0], evaluateDeriv := fun _ _ => ![2, 0, 0] }))
          1 = Except.ok s2 ∧ s2._force = ![4, 0, 0] := by
  obtain ⟨s1, h1, hf1, hall⟩ :=
    C7_velocity_fallback sqrtMagnitude damperSpring fastModel 1 parabolaTarget
      damperSpring_reaches rfl
  obtain ⟨s2, h2, _, hsame⟩ :=
    hall { evaluate := fun t => ![2 * t, 0, 0], evaluateDeriv := fun _ _ => ![2, 0, 0] }
  have hv1 : s1._force = ![4, 0, 0] := by
    rw [hf1]
    funext i
    fin_cases i <;>
      norm_num [forceWith, positionError, scaleMultiplier, targetPosition, globalPosition,
        globalVelocity, localPoint, queryTime, AbstractDynamicsEngine.getPosition,
        AbstractDynamicsEngine.getVelocity, damperSpring, demoSpring, fastModel, demoEngine,
        parabolaTarget, Model.getTimeNormConstant]
  refine ⟨damperSpring_reaches, rfl, ⟨s1, h1, hv1⟩, s2, h2, ?_⟩
  rw [hsame (by simp [parabolaTarget]), hv1]

/-- C8.  With a model and a point function bound, `computeTargetFunctions`
returns for a history of any sample count `count >= 0`: the accumulated
global-position series and the accumulated global-velocity series have `count`
rows each, both are padded with the same pad length `n = min(100,
floor(count/4))`, and the two target functions are the splines of the padded
series, which have `count + 2*n` rows.  The pad length never exceeds 100, is 0
for `count < 4`, 10 for `count = 40` and 100 for `count = 1000`. -/
theorem C8_pad_length (s : LinearSpring) (aQStoreForTarget aUStoreForTarget : Storage)
    (model : Model) (pf : VectorFunction) (hm : s._model = some model)
    (hpf : s._pointFunction = some pf) :
    ∃ pGlobalStore vGlobalStore : Storage,
      pGlobalStore.getSize = aQStoreForTarget.getSize ∧
      vGlobalStore.getSize = aQStoreForTarget.getSize ∧
      (∀ VectorGCVSplineR1R3 : Int → Int → List ℚ → List ℚ → List ℚ → List ℚ → VectorFunction,
        ∃ s1, computeTargetFunctions VectorGCVSplineR1R3 s aQStoreForTarget aUStoreForTarget =
            Except.ok s1 ∧
          s1._targetPosition = some (splineOfStore VectorGCVSplineR1R3
            (pGlobalStore.pad (min 100 (aQStoreForTarget.getSize / 4)))) ∧
          s1._targetVelocity = some (splineOfStore VectorGCVSplineR1R3
            (vGlobalStore.pad (min 100 (aQStoreForTarget.getSize / 4))))) ∧
      (pGlobalStore.pad (min 100 (aQStoreForTarget.getSize / 4))).getSize =
        aQStoreForTarget.getSize + 2 * min 100 (aQStoreForTarget.getSize / 4) ∧
      (vGlobalStore.pad (min 100 (aQStoreForTarget.getSize / 4))).getSize =
        aQStoreForTarget.getSize + 2 * min 100 (aQStoreForTarget.getSize / 4) ∧
      0 ≤ aQStoreForTarget.getSize ∧
      min 100 (aQStoreForTarget.getSize / 4) ≤ 100 ∧
      (aQStoreForTarget.getSize < 4 → min 100 (aQStoreForTarget.getSize / 4) = 0) ∧
      (aQStoreForTarget.getSize = 40 → min 100 (aQStoreForTarget.getSize / 4) = 10) ∧
      (aQStoreForTarget.getSize = 1000 → min 100 (aQStoreForTarget.getSize / 4) = 100) := by
  have hsize : 0 ≤ aQStoreForTarget.getSize := Int.natCast_nonneg _
  have hn : 0 ≤ min 100 (aQStoreForTarget.getSize / 4) := by omega
  have hzero : ∀ st : Storage, st.getSize = aQStoreForTarget.getSize →
      st.getSize = 0 → min 100 (aQStoreForTarget.getSize / 4) = 0 := by
    intro st h1 h2
    omega
  obtain ⟨scan, hloop, hp, hv⟩ :=
    computeTargetFunctionsLoop_sizes s model.getNumCoordinates model.getNumSpeeds
      aQStoreForTarget aUStoreForTarget pf hpf (List.range aQStoreForTarget.getSize.toNat)
      { t := 0, q := List.replicate model.getNumCoordinates 0
        u := List.replicate model.getNumSpeeds 0
        engine := model.getDynamicsEngine
        pGlobalStore := { rows := [] }, vGlobalStore := { rows := [] } }
  have hlen : ((List.range aQStoreForTarget.getSize.toNat).length : Int) =
      aQStoreForTarget.getSize := by
    rw [List.length_range]
    exact Int.toNat_of_nonneg hsize
  have hp1 : scan.pGlobalStore.getSize = aQStoreForTarget.getSize := by
    rw [hp, hlen]
    simp [Storage.getSize]
  have hv1 : scan.vGlobalStore.getSize = aQStoreForTarget.getSize := by
    rw [hv, hlen]
    simp [Storage.getSize]
  refine ⟨scan.pGlobalStore, scan.vGlobalStore, hp1, hv1, ?_, ?_, ?_, hsize, ?_, ?_, ?_, ?_⟩
  · intro VectorGCVSplineR1R3
    simp only [computeTargetFunctions, hm, hloop, padSize_eq _ hsize]
    exact ⟨_, rfl, rfl, rfl⟩
  · rw [getSize_pad _ _ hn (hzero _ hp1), hp1]
  · rw [getSize_pad _ _ hn (hzero _ hv1), hv1]
  · omega
  · intro h
    omega
  · intro h
    omega
  · intro h
    omega

/-- A history of 40 samples: both series are padded with 10 rows at each end,
and the splines are built from 60 knots. -/
theorem C8_pad_length_witness :
    pointSpring._model = some demoModel ∧ pointSpring._pointFunction = some demoPoint ∧
      history40.getSize = 40 ∧
      ∃ pGlobalStore vGlobalStore : Storage,
        (pGlobalStore.pad 10).getSize = 60 ∧ (vGlobalStore.pad 10).getSize = 60 ∧
        ∃ s1, computeTargetFunctions knotSpline pointSpring history40 history40 = Except.ok s1 ∧
          s1._targetPosition = some (splineOfStore knotSpline (pGlobalStore.pad 10)) ∧
          s1._targetVelocity = some (splineOfStore knotSpline (vGlobalStore.pad 10)) := by
  have h40 : history40.getSize = 40 := by
    simp [Storage.getSize, history40]
  obtain ⟨p, v, _, _, hall, hps, hvs, _, _, _, hten, _⟩ :=
    C8_pad_length pointSpring history40 history40 demoModel demoPoint rfl rfl
  have hn : min 100 (history40.getSize / 4) = 10 := hten h40
  rw [hn, h40] at hps hvs
  obtain ⟨s1, h1, htp, htv⟩ := hall knotSpline
  rw [hn] at htp htv
  exact ⟨rfl, rfl, h40, p, v, hps, hvs, s1, h1, htp, htv⟩

/-- C9.  Every call that passes the guard checks (model bound, actuator on,
`t` inside the window) returns, and whether or not the force passes the
threshold gate, the stored force after the call is the force of the force law
for that call, and, when a local attachment-point function is bound, the stored
attachment point is that function's value at the query time (the call time
scaled by the model's time normalization constant).  The engine and the log
are touched only behind the gate: when the force does not pass it, the model
with its engine and the log are as before; when it passes, the engine receives
the force. -/
theorem C9_stored_force_and_point (Magnitude : Nat → Vec3 → ℚ) (s : LinearSpring)
    (model : Model) (aT : ℚ) (hr : ReachesForceComputation s model aT) :
    ∃ s1, applyActuation Magnitude s aT = Except.ok s1 ∧
      s1._force = forceLaw s model aT ∧
      (∀ pf, s._pointFunction = some pf → s1._point = pf.evaluate (queryTime model aT)) ∧
      (¬ PassesGate Magnitude s (forceLaw s model aT) →
        s1._model = s._model ∧ s1._appliedForceStore = s._appliedForceStore) ∧
      (PassesGate Magnitude s (forceLaw s model aT) →
        ForceApplied s s1 (localPoint s (queryTime model aT)) (forceLaw s model aT)) := by
  have hpoint : ∀ pf, s._pointFunction = some pf →
      (storedState s model aT)._point = pf.evaluate (queryTime model aT) := by
    intro pf hpf
    simp [storedState, localPoint, hpf]
  rcases applyActuation_active Magnitude s model aT hr with h | h
  · exact ⟨_, h.2, rfl, hpoint, fun hn => absurd h.1 hn,
      fun _ => applyForceCalls_appliedState s model aT hr.1⟩
  · exact ⟨_, h.2, rfl, hpoint, fun _ => ⟨rfl, rfl⟩, fun hg => absurd hg h.1⟩

/-- With the attachment-point function `(0,t,0)` bound, the call at `t = 1.5`
stores the force `(5,0,0)` and the attachment point `(0,1.5,0)`, also under the
threshold 6 that suppresses the force. -/
theorem C9_stored_force_and_point_witness :
    ReachesForceComputation (pointSpring.setThreshold 6) demoModel (3 / 2) ∧
      ∃ s1, applyActuation sqrtMagnitude (pointSpring.setThreshold 6) (3 / 2) = Except.ok s1 ∧
        s1._force = ![5, 0, 0] ∧ s1._point = ![0, 3 / 2, 0] ∧
        s1._model = some demoModel ∧ s1._appliedForceStore = pointSpring._appliedForceStore := by
  have hr : ReachesForceComputation (pointSpring.setThreshold 6) demoModel (3 / 2) :=
    pointSpring_reaches
  have hf : forceLaw (pointSpring.setThreshold 6) demoModel (3 / 2) = ![5, 0, 0] :=
    pointSpring_forceLaw
  obtain ⟨s1, h1, hforce, hpoint, hclosed, _⟩ :=
    C9_stored_force_and_point sqrtMagnitude (pointSpring.setThreshold 6) demoModel (3 / 2) hr
  have hg : ¬ PassesGate sqrtMagnitude (pointSpring.setThreshold 6)
      (forceLaw (pointSpring.setThreshold 6) demoModel (3 / 2)) := by
    rw [passesGate_iff sqrtMagnitude isMagnitude_sqrtMagnitude, hf, sqrtMagnitude_axis]
    norm_num [setThreshold]
  refine ⟨hr, s1, h1, hforce.trans hf, ?_, (hclosed hg).1, (hclosed hg).2⟩
  rw [hpoint demoPoint rfl]
  simp [demoPoint, queryTime, demoModel]

/-- C10.  The applied-force log is append-only under `applyActuation`.  A call
either stops at the dereference of the null model, before anything is written,
or returns; in a call that returns the log before is a prefix of the log after
and at most one row is added; a row is added if and only if the call reaches
the force computation, the magnitude of the force is at least the threshold
and load recording is on; that row is the time passed to the call with the
three components of the force computed, stored and applied in that call. -/
theorem C10_log_append_only (Magnitude : Nat → Vec3 → ℚ) (hM : IsMagnitude Magnitude)
    (s : LinearSpring) (aT : ℚ) :
    (s._model = none ∧ applyActuation Magnitude s aT = Except.error Fault.nullModel) ∨
    ∃ model s1, s._model = some model ∧ applyActuation Magnitude s aT = Except.ok s1 ∧
      appliedForceLog s <+: appliedForceLog s1 ∧
      (appliedForceLog s1).length ≤ (appliedForceLog s).length + 1 ∧
      ((appliedForceLog s1).length = (appliedForceLog s).length + 1 ↔
        ReachesForceComputation s model aT ∧
          s._threshold ≤ Magnitude 3 (forceLaw s model aT) ∧ s._recordAppliedLoads = true) ∧
      ((appliedForceLog s1).length = (appliedForceLog s).length + 1 →
        appliedForceLog s1 = appliedForceLog s ++
            [(aT, [forceLaw s model aT 0, forceLaw s model aT 1, forceLaw s model aT 2])] ∧
          s1._force = forceLaw s model aT ∧
          ForceApplied s s1 (localPoint s (queryTime model aT)) (forceLaw s model aT)) := by
  cases hm : s._model with
  | none => exact Or.inl ⟨rfl, by simp [applyActuation, hm]⟩
  | some model =>
    right
    by_cases hr : ReachesForceComputation s model aT
    · rcases applyActuation_active Magnitude s model aT hr with h | h
      · have hlog := appliedForceLog_appliedState s model aT
        have hle : s._threshold ≤ Magnitude 3 (forceLaw s model aT) :=
          (passesGate_iff Magnitude hM s _).mp h.1
        cases hrec : s._recordAppliedLoads with
        | false =>
          simp only [hrec, Bool.false_eq_true, if_false, List.append_nil] at hlog
          refine ⟨model, _, rfl, h.2, ?_, ?_, ?_, ?_⟩
          · rw [hlog]
          · rw [hlog]; exact Nat.le_succ _
          · rw [hlog]; simp
          · rw [hlog]; intro hl; simp at hl
        | true =>
          simp only [hrec, if_true] at hlog
          refine ⟨model, _, rfl, h.2, ?_, ?_, ?_, ?_⟩
          · rw [hlog]; exact List.prefix_append _ _
          · rw [hlog]; simp
          · rw [hlog]; simp [hr, hle]
          · intro _
            exact ⟨hlog, rfl, applyForceCalls_appliedState s model aT hm⟩
      · have hlt : ¬ s._threshold ≤ Magnitude 3 (forceLaw s model aT) := fun hle =>
          h.1 ((passesGate_iff Magnitude hM s _).mpr hle)
        have hlog : appliedForceLog (storedState s model aT) = appliedForceLog s := rfl
        refine ⟨model, _, rfl, h.2, ?_, ?_, ?_, ?_⟩
        · rw [hlog]
        · rw [hlog]; exact Nat.le_succ _
        · rw [hlog]; simp [hlt]
        · rw [hlog]; intro hl; simp at hl
    · refine ⟨model, s, rfl, applyActuation_inactive Magnitude s model aT hm hr, ?_, ?_, ?_, ?_⟩
      · exact List.prefix_refl _
      · exact Nat.le_succ _
      · simp [hr]
      · intro hl; simp at hl

/-- The end-to-end scenario: the call at `t = 1.5` returns and adds the row
`(1.5, (5,0,0))` to the empty log. -/
theorem C10_log_append_only_witness :
    IsMagnitude sqrtMagnitude ∧
      ∃ s1, applyActuation sqrtMagnitude demoSpring (3 / 2) = Except.ok s1 ∧
        appliedForceLog s1 = [(3 / 2, [5, 0, 0])] := by
  refine ⟨isMagnitude_sqrtMagnitude, ?_⟩
  rcases C10_log_append_only sqrtMagnitude isMagnitude_sqrtMagnitude demoSpring (3 / 2) with
    h | ⟨model, s1, hm, h1, _, _, hiff, hrow⟩
  · exact absurd h.1 (by simp [demoSpring])
  · have hmodel : model = demoModel := by
      have : some demoModel = some model := hm
      exact (Option.some.inj this).symm
    subst hmodel
    have hmag : sqrtMagnitude 3 (forceLaw demoSpring demoModel (3 / 2)) = 5 := by
      rw [demoSpring_forceLaw, sqrtMagnitude_axis]
      norm_num
    have hlen := hiff.mpr ⟨demoSpring_reaches, by rw [hmag]; norm_num [demoSpring], rfl⟩
    refine ⟨s1, h1, ?_⟩
    rw [(hrow hlen).1, demoSpring_forceLaw]
    simp [appliedForceLog, demoSpring]

end LinearSpring

end OpenSim
